import Mathlib

/-!
Verification development for two components of the crawl excerpt:

* `dat/des/builder/alphashops.des` — the Lua map script that names and
  stocks the "alphabet shops" vault (letter eligibility, owner naming,
  inventory sizing);
* `describe-spells.cc` — the spell-description renderer (spell
  deduplication, display-letter assignment, damage/range/school strings,
  colourization, terse listings).

Lua strings are modelled as `List Char` / `String`, C++ integers as
`Int`/`Nat` (with explicit wraparound where `size_t` arithmetic matters),
and engine functions that live outside the excerpt are parameters.
-/

namespace AlphaShops

/-- The per-letter shop item table, transcribed from
`alphashops.des`, `shopcontents` (lines 62–198): each letter maps to the
ordered list of item-name strings of its `i = { ... }` branch; the final
`else` branch yields `{ "any" }`. -/
def shopcontents (s : Char) : List String :=
  if s = 'A' then [ "arbalest", "book of alchemy", "book of air",
   "manual of air magic", "book of annihilations",
   "potion of ambrosia", "scroll of acquirement q:1",
   "scroll of amnesia", "staff of air",
   "manual of axes", "manual of armour", "wand of acid",
   "acid dragon scales", "potion of attraction", "book of armaments" ]
  else if s = 'B' then [ "bardiche", "battleaxe",
   "book of burglary", "box of beasts", "book of blasting",
   "book of blood",
   "broad axe", "pair of boots", "potion of berserk rage",
   "potion of brilliance",
   "scroll of blinking", "scroll of brand weapon",
   "manual of bows", "buckler", "boomerang" ]
  else if s = 'C' then [ "book of callings", "book of cantrips",
   "club", "book of changes", "book of conjurations",
   "chain mail", "cloak", "crystal plate armour", "potion of cancellation",
   "staff of cold", "staff of conjuration", "book of callings",
   "book of chaos",
   "manual of crossbows", "manual of conjurations",
   "potion of curing", "condenser vane", "wand of charming" ]
  else if s = 'D' then [ "book of death", "book of debilitation",
   "book of dreams", "book of the dragon", "dagger",
   "demon blade", "demon trident", "demon whip", "dire flail",
   "double sword", "ring of dexterity", "manual of dodging",
   "staff of death", "wand of digging", "dart", "book of dangerous friends",
   "book of displacement", "book of decay" ]
  else if s = 'E' then [ "manual of evocations",
   "eveningstar", "ring of evasion", "executioner's axe",
   "potion of experience q:1", "scroll of enchant armour", "staff of earth",
   "book of the earth", "scroll of enchant weapon", "manual of earth magic",
   "everburning encyclopedia" ]
  else if s = 'F' then [ "book of fire", "book of flames", "flail",
   "book of frost", "falchion", "fire dragon scales", "potion of flight",
   "ring of fire", "scroll of fear", "staff of fire", "fen folio",
   "ring of flight", "scroll of fog", "wand of flame",
   "manual of fighting", "amulet of faith", "manual of fire magic",
   "fustibalus" ]
  else if s = 'G' then [ "amulet of guardian spirit", "giant club",
   "giant spiked club", "book of geomancy",
   "glaive", "gold dragon scales", "grand grimoire", "great mace",
   "great sword", "pair of gloves", "great wizards, vol. ii",
   "great wizards, vol. vii" ]
  else if s = 'H' then [ "halberd", "hand axe",
   "hand crossbow", "hunting sling", "potion of heal wounds",
   "potion of haste", "scroll of holy word", "manual of hexes", "hat",
   "helmet", "book of hexes", "book of the hunter" ]
  else if s = 'I' then [ "ring of ice",
   "scroll of immolation", "ice dragon scales", "book of ice",
   "potion of invisibility", "ring of intelligence", "scroll of identify",
   "wand of iceblast", "manual of invocations", "manual of ice magic",
   "inescapable atlas", "book of iron" ]
  else if s = 'J' then [ "javelin" ]
  else if s = 'K' then [ "any" ]
  else if s = 'L' then [ "manual of long blades", "large rock",
   "leather armour", "long sword", "potion of lignification", "lajatang",
   "longbow", "lightning rod", "book of lightning" ]
  else if s = 'M' then [ "manual of maces & flails",
   "book of minor magic", "book of misfortune", "book of maledictions",
   "morningstar", "mace", "potion of magic", "wand of mindburst",
   "ring of magical power", "amulet of magic regeneration", "potion of might",
   "potion of mutation", "scroll of magic mapping", "book of the moon" ]
  else if s = 'N' then [ "book of necromancy",
   "necronomicon", "scroll of noise", "manual of necromancy" ]
  else if s = 'O' then [ "ozocubu's autobiography" ]
  else if s = 'P' then [ "book of party tricks", "book of power",
   "pearl dragon scales", "phantom mirror", "phial of floods",
   "plate armour", "ring of poison resistance", "manual of polearms",
   "wand of polymorph", "ring of positive energy", "ring of protection",
   "manual of poison magic", "wand of paralysis",
   "ring of protection from fire", "staff of poison",
   "ring of protection from cold", "book of pain" ]
  else if s = 'Q' then [ "quarterstaff", "quicksilver dragon scales",
   "quick blade" ]
  else if s = 'R' then [ "amulet of reflection",
   "amulet of regeneration", "rapier", "ring of resist corrosion",
   "potion of resistance", "robe", "ring mail", "book of rime" ]
  else if s = 'S' then [ "scarf", "scimitar", "short sword",
   "scale mail", "book of storms", "book of the sky",
   "ring of see invisible", "ring of slaying", "spear",
   "ring of strength", "manual of stealth", "scroll of summoning",
   "scythe", "book of spatial translocations", "scroll of silence",
   "shortbow", "manual of staves", "steam dragon scales",
   "shadow dragon scales", "storm dragon scales", "swamp dragon scales",
   "manual of short blades", "manual of slings", "manual of shields",
   "manual of spellcasting", "manual of summonings", "stone",
   "book of storms", "book of sloth", "book of the senses",
   "book of spectacle", "book of the spheres", "book of scorching" ]
  else if s = 'T' then [ "scroll of torment",
   "book of transfigurations", "scroll of teleportation", "triple sword",
   "triple crossbow", "troll leather armour", "manual of throwing",
   "manual of translocations", "manual of transmutations",
   "trident", "throwing net", "tower shield", "tin of tremorstones",
   "book of the tundra", "book of touch", "there-and-back book",
   "trismegistus codex" ]
  else if s = 'U' then [ "book of unlife", "manual of unarmed combat",
   "the unrestrained analects" ]
  else if s = 'V' then [ "scroll of vulnerability", "book of vapours" ]
  else if s = 'W' then [ "ring of wizardry", "book of the warp", "whip",
   "war axe", "ring of willpower", "book of winter", "book of weapons",
   "book of the wilderness" ]
  else if s = 'X' then [ "piece from xom's chessboard" ]
  else if s = 'Y' then [ "young poisoner's handbook" ]
  else if s = 'Z' then [ "any" ]
  else [ "any" ]

/-- Modelled from the spec: `crawl.random2` is the engine's RNG, absent
from the excerpt; per the script's own comment it "returns 0 for values
<= 1" and otherwise draws uniformly from `[0, m)`. The draw is modelled
by an arbitrary natural `r` reduced modulo `m`. -/
def random2 (m : Int) (r : Nat) : Int :=
  if m ≤ 1 then 0 else ((r % m.toNat : Nat) : Int)

/-- The alphabet string of `pickletter` (line 203). -/
def alphabet : List Char := "ABCDEFGHIJKLMNOPQRSTUVWXYZ".toList

/-- The marking loop of `pickletter` (lines 204–212): for each letter the
item list length is taken, **incremented by one**, and the letter is
`gsub`-replaced by a dash when that incremented count is below 5. -/
def markedAlphabet : List Char :=
  alphabet.map (fun c =>
    if (shopcontents c).length + 1 < 5 then '-' else c)

/-- `local options = string.gsub(alphabet, "-", "")` (line 213): the
surviving letters. -/
def options : List Char := markedAlphabet.filter (fun c => c ≠ '-')

/-- `pickletter` (lines 202–217): one random surviving letter.  The Lua
uses 1-based `string.sub`; `random2(len)+1` is the 1-based index, here
expressed 0-based. `r` is the RNG draw. -/
def pickletter (r : Nat) : Char :=
  options.getD (random2 options.length r).toNat '-'

/-- The shop-placement body of the vault (lines 229–235): `itemcount`
items exist for the chosen letter, `maxcount = math.min(15, itemcount)`,
`shopcount = 5 + crawl.random2(maxcount - 4)` then clamped by
`math.min(itemcount, shopcount)`. `r` is the RNG draw. -/
def shopcountFor (letter : Char) (r : Nat) : Int :=
  let itemcount : Int := (shopcontents letter).length
  let maxcount : Int := min 15 itemcount
  let shopcount : Int := 5 + random2 (maxcount - 4) r
  min itemcount shopcount

/-- Lua `string.lower`: lowercase every byte. -/
def luaLower (s : List Char) : List Char := s.map Char.toLower

/-- Lua `string.sub(s, 2)`: everything from the second byte on. -/
def luaSub2 (s : List Char) : List Char := s.drop 1

/-- Lua `string.gsub(s, " ", "")`: remove every space. -/
def removeSpaces (s : List Char) : List Char := s.filter (fun c => c ≠ ' ')

/-- `ownername` (lines 15–24).  `s` is the shop letter, `nicolae` the
`crawl.one_chance_in(20)` draw, and `gen` the string produced by the
engine's `crawl.make_name()` (modelled as an arbitrary input). -/
def ownername (s : Char) (nicolae : Bool) (gen : List Char) : List Char :=
  if s = 'N' ∧ nicolae then "Nicolae".toList
  else removeSpaces (s :: luaSub2 (luaLower gen))

end AlphaShops

namespace DescribeSpells

/-- `spell_type` is an engine enum (not in the excerpt); spells are
modelled as naturals, with distinct constants for the values the file
tests against. -/
abbrev spell_type := Nat

def SPELL_FREEZE : spell_type := 1

def SPELL_WATERSTRIKE : spell_type := 2

def SPELL_IOOD : spell_type := 3

def SPELL_GLACIATE : spell_type := 4

def SPELL_CONJURE_BALL_LIGHTNING : spell_type := 5

def SPELL_CONJURE_LIVING_SPELLS : spell_type := 6

def SPELL_SMITING : spell_type := 7

def SPELL_SEARING_BREATH : spell_type := 8

/-- A labeled ordered group of spells (`spellbook_contents` in
`describe-spells.h`): a display label plus the spell sequence. -/
structure spellbook_contents where
  label : String
  spells : List spell_type

/-- A `spellset` is a vector of spellbooks. -/
abbrev spellset := List spellbook_contents

/-- Membership-preserving insertion: the model of `std::set::insert`.
Only membership, `erase` and element uniqueness of the `std::set` are
observable in this file (the set is never iterated), so it is modelled
as a duplicate-free list. -/
def setInsert (s : List spell_type) (x : spell_type) : List spell_type :=
  if x ∈ s then s else s ++ [x]

/-- The second pass of `_spellset_contents` (lines 241–248): erase the
spell from the set of not-yet-listed spells, and append it to the output
exactly when the erase removed something. -/
def eraseStep (st : List spell_type × List spell_type) (spell : spell_type) :
    List spell_type × List spell_type :=
  if spell ∈ st.1 then (st.1.erase spell, st.2 ++ [spell]) else (st.1, st.2)

/-- `_spellset_contents` (lines 231–251): collect the unique spells into
a set, then walk the books again in order, listing each spell the first
time it is erased from the set. -/
def _spellset_contents (spells : spellset) : List spell_type :=
  let unique_spells :=
    spells.foldl (fun s book => book.spells.foldl setInsert s) []
  (spells.foldl (fun st book => book.spells.foldl eraseStep st)
    (unique_spells, [])).2

/-- All spells of a spellset in traversal order (books in order, each
book's spells in order). -/
def flatSpells (spells : spellset) : List spell_type :=
  (spells.map spellbook_contents.spells).flatten

/-- Spec-side definition, following the spec's words: keep each distinct
spell once, at the position of its first occurrence (append each spell
to the output the first time it is seen). -/
def firstOccurrenceDedup (l : List spell_type) : List spell_type :=
  l.foldl setInsert []

/-- `item_def` carries only what this excerpt observes of an item
(an opaque physical book); the renderer only tests it for null-ness and
reads its spells through engine accessors. -/
structure item_def where
  spells : List spell_type

/-- `_list_spells_doublecolumn` (lines 321–324): two columns exactly when
the source item is null (monster spellbooks). -/
def _list_spells_doublecolumn (source_item : Option item_def) : Bool :=
  source_item.isNone

/-- The `next_ch++` pattern of `map_chars_to_spells`: pair each spell of
the list with one character, starting at code `c`.  C++ `char` is a
number; characters are modelled by their codes (`'a'` = 97). -/
def assignLetters : List spell_type → Nat → List (spell_type × Nat)
  | [], _ => []
  | s :: rest, c => (s, c) :: assignLetters rest (c + 1)

/-- The loop `for (size_t i = 0; i < flat_spells.size(); i += 2)`:
the elements at even positions, in order. -/
def evenPositions : List spell_type → List spell_type
  | [] => []
  | [s] => [s]
  | s :: _ :: rest => s :: evenPositions rest

/-- The loop `for (size_t i = 1; i < flat_spells.size(); i += 2)`:
the elements at odd positions, in order. -/
def oddPositions : List spell_type → List spell_type
  | [] => []
  | [_] => []
  | _ :: t :: rest => t :: oddPositions rest

/-- `map_chars_to_spells` (lines 337–356): sequential letters from `'a'`
in the single-column case; in the double-column case the even-position
spells get the first letters and the odd-position spells continue where
the first loop's `next_ch` stopped. -/
def map_chars_to_spells (spells : spellset) (source_item : Option item_def) :
    List (spell_type × Nat) :=
  let next_ch : Nat := 97
  let flat_spells := _spellset_contents spells
  if !_list_spells_doublecolumn source_item then
    assignLetters flat_spells next_ch
  else
    let firstCol := assignLetters (evenPositions flat_spells) next_ch
    let secondCol := assignLetters (oddPositions flat_spells)
      (next_ch + firstCol.length)
    firstCol ++ secondCol

def SPELL_MARSHLIGHT : spell_type := 9

/-- Damage dice (engine type `dice_def`): count and size. -/
structure dice_def where
  num : Int
  size : Int
deriving DecidableEq

/-- The three spell flags this file tests (`spflag::selfench`,
`spflag::WL_check`, `spflag::mons_abjure`), as projections of the
engine's flag bitset. -/
structure spflags where
  selfench : Bool
  WL_check : Bool
  mons_abjure : Bool

/-- A grid position. -/
abbrev coord := Int × Int

/-- Modelled from the spec: the ambient mutable globals the renderer can
read (`crawl_state.need_save`, `you.pos()`, `you.immune_to_hex`).  The
spec's claim that the computed strings have "no hidden state" is about
exactly these globals, so they are made an explicit parameter. -/
structure GameState where
  need_save : Bool
  you_pos : coord
  immune_to_hex : spell_type → Bool

/-- The player's knowledge of a monster (`monster_info`): only the
fields this file reads.  `mtype` stands for the C++ field `type` (a Lean
keyword); `spell_hd` models the accessor `mon_owner->spell_hd()`. -/
structure monster_info where
  mtype : Nat
  pos : coord
  attitude : Nat
  hd : Int
  spell_hd : Int

def ATT_FRIENDLY : Nat := 1

def MONS_XTAHUA : Nat := 1000

def NUM_ZAPS : Nat := 100

def INFINITE_DISTANCE : Int := 30000

/-- Modelled from the spec: the per-spell metadata accessors the
renderer queries from the engine ("damage dice, range, school,
known-status"); all pure functions defined outside the excerpt. -/
structure Engine where
  get_spell_flags : spell_type → spflags
  mons_power_for_hd : spell_type → Int → Int
  spell_range : spell_type → Int → Bool → Int
  in_bounds : coord → Bool
  grid_distance : coord → coord → Nat
  spell_to_zap : spell_type → Nat
  zap_damage : Nat → Int → Bool → Bool → dice_def
  freeze_damage : Int → dice_def
  waterstrike_damage : Int → dice_def
  iood_damage : Int → Int → Bool → dice_def
  glaciate_damage : Int → Int → dice_def
  ball_lightning_damage : Int → dice_def
  mons_ball_lightning_hd : Int → Bool → Int
  mons_spell_is_spell : spell_type → Bool
  living_spell_type_for : Nat → spell_type
  living_spell_count : spell_type → Bool → Int
  hex_chance : GameState → spell_type → monster_info → Int
  spell_typematch : spell_type → Nat → Bool
  spelltype_long_name : Nat → String
  school_list : List Nat
  spell_title : spell_type → String
  spell_difficulty : spell_type → Int
  colour_to_str : Nat → String
  element_colour : Nat → Bool → coord → Nat

/-- Decimal digit characters (the output alphabet of printf's "%d"). -/
def digitChar (d : Nat) : Char :=
  match d with
  | 0 => '0' | 1 => '1' | 2 => '2' | 3 => '3' | 4 => '4'
  | 5 => '5' | 6 => '6' | 7 => '7' | 8 => '8' | _ => '9'

/-- The decimal digits of a natural number, most significant first. -/
def natDigits (n : Nat) : List Char :=
  if n < 10 then [digitChar n]
  else natDigits (n / 10) ++ [digitChar (n % 10)]
termination_by n
decreasing_by
  omega

/-- Modelled from the spec: `make_stringf("%d", i)` (stringutil, not in
the excerpt) renders an `int` in decimal — a minus sign followed by the
digits of the absolute value for negatives. -/
def intToString (i : Int) : String :=
  if i < 0 then ⟨'-' :: natDigits i.natAbs⟩ else ⟨natDigits i.toNat⟩

/-- The `in_range` conjunction of `_range_string` (lines 369–371),
isolated so its dependence on the game state can be named: the player
must have a save, the monster must be in bounds, and the grid distance
from the player to the monster must be within the spell's range. -/
def range_test (e : Engine) (st : GameState) (spell : spell_type)
    (mon : monster_info) (hd : Int) : Bool :=
  st.need_save && e.in_bounds mon.pos &&
    decide ((e.grid_distance st.you_pos mon.pos : Int)
      ≤ e.spell_range spell (e.mons_power_for_hd spell hd) false)

/-- `_range_string` (lines 358–374).  `st` is the ambient global state. -/
def _range_string (e : Engine) (st : GameState) (spell : spell_type)
    (mon_owner : Option monster_info) (hd : Int) : String :=
  let flags := e.get_spell_flags spell
  let pow := e.mons_power_for_hd spell hd
  let range := e.spell_range spell pow false
  let has_range := mon_owner.isSome && decide (range > 0) && !flags.selfench
  if !has_range then ""
  else
    match mon_owner with
    | none => ""
    | some mon =>
        let in_range := has_range && range_test e st spell mon hd
        let range_col := if in_range then "lightred" else "lightgray"
        "(<" ++ range_col ++ ">" ++ intToString range ++ "</" ++ range_col ++ ">)"

/-- `_spell_damage` (lines 376–401).  `_st` is the ambient global state,
which the source body never reads. -/
def _spell_damage (e : Engine) (_st : GameState) (spell : spell_type)
    (hd : Int) : dice_def :=
  let pow := e.mons_power_for_hd spell hd
  if spell = SPELL_FREEZE then e.freeze_damage pow
  else if spell = SPELL_WATERSTRIKE then e.waterstrike_damage hd
  else if spell = SPELL_IOOD then e.iood_damage pow INFINITE_DISTANCE false
  else if spell = SPELL_GLACIATE then e.glaciate_damage pow 3
  else if spell = SPELL_CONJURE_BALL_LIGHTNING then
    e.ball_lightning_damage (e.mons_ball_lightning_hd pow false)
  else
    let zap := e.spell_to_zap spell
    if zap = NUM_ZAPS then ⟨0, 0⟩
    else e.zap_damage zap pow true false

/-- `_spell_hd` (lines 403–410).  C++ `/` on int truncates toward zero,
hence `Int.tdiv`. -/
def _spell_hd (e : Engine) (spell : spell_type)
    (mon_owner : monster_info) : Int :=
  if spell = SPELL_SEARING_BREATH ∧ mon_owner.mtype = MONS_XTAHUA then
    (mon_owner.hd * 3).tdiv 2
  else if e.mons_spell_is_spell spell then mon_owner.spell_hd
  else mon_owner.hd

/-- `_spell_schools` (lines 296–311): '/'-separated names of the schools
the spell matches, in `spschools_type::range()` order.  `_st` is the
ambient global state, never read by the source body. -/
def _spell_schools (e : Engine) (_st : GameState) (spell : spell_type) :
    String :=
  e.school_list.foldl
    (fun schools school_flag =>
      if !e.spell_typematch spell school_flag then schools
      else (if schools ≠ "" then schools ++ "/" else schools)
        ++ e.spelltype_long_name school_flag) ""

/-- `_effect_string` (lines 464–504), every case except the
`SPELL_CONJURE_LIVING_SPELLS` dispatch.  The willpower branch models a
non-debug build (`DEBUG_DIAGNOSTICS` undefined), so friendly monsters
yield the empty string. -/
def _effect_string_base (e : Engine) (st : GameState) (spell : spell_type)
    (mon_owner : Option monster_info) : String :=
  match mon_owner with
  | none => ""
  | some mon =>
      let hd := _spell_hd e spell mon
      if hd = 0 then ""
      else if (e.get_spell_flags spell).WL_check then
        if ¬st.need_save ∨ mon.attitude = ATT_FRIENDLY then ""
        else if st.immune_to_hex spell then "(immune)"
        else "(" ++ intToString (e.hex_chance st spell mon) ++ "%)"
      else if spell = SPELL_SMITING then "7-17"
      else
        let dam := _spell_damage e st spell hd
        if dam.num = 0 ∨ dam.size = 0 then ""
        else
          let mult := if spell = SPELL_MARSHLIGHT then "2x"
            else if spell = SPELL_CONJURE_BALL_LIGHTNING then "3x" else ""
          "(" ++ mult ++ intToString dam.num ++ "d" ++ intToString dam.size ++ ")"

/-- `_describe_living_spells` (lines 453–461).  `base_desc[0]` on a
`std::string` returns the null character when the string is empty
(position == size), modelled by `headD`.  The recursion back into
`_effect_string` is one level deep: the engine's `living_spell_type_for`
never yields `SPELL_CONJURE_LIVING_SPELLS` itself, so the inner call
evaluates the non-living body. -/
def _describe_living_spells (e : Engine) (st : GameState)
    (mon_owner : monster_info) : String :=
  let spell := e.living_spell_type_for mon_owner.mtype
  let n := e.living_spell_count spell false
  let base_desc := _effect_string_base e st spell (some mon_owner)
  let desc := if base_desc.data.headD (Char.ofNat 0) = '(' then base_desc
    else "(" ++ base_desc ++ ")"
  intToString n ++ "x" ++ desc

/-- `_effect_string` (lines 464–504): null owner yields the empty
string; Conjure Living Spells dispatches to `_describe_living_spells`;
everything else evaluates the base body. -/
def _effect_string (e : Engine) (st : GameState) (spell : spell_type)
    (mon_owner : Option monster_info) : String :=
  match mon_owner with
  | none => ""
  | some mon =>
      if spell = SPELL_CONJURE_LIVING_SPELLS then
        _describe_living_spells e st mon
      else _effect_string_base e st spell (some mon)

/-- A concrete engine for counterexamples and witnesses: every spell has
range 5 and no flags, distances are Chebyshev. -/
def testEngine : Engine where
  get_spell_flags := fun _ => ⟨false, false, false⟩
  mons_power_for_hd := fun _ hd => hd
  spell_range := fun _ _ _ => 5
  in_bounds := fun _ => true
  grid_distance := fun p q => max (p.1 - q.1).natAbs (p.2 - q.2).natAbs
  spell_to_zap := fun _ => NUM_ZAPS
  zap_damage := fun _ _ _ _ => ⟨0, 0⟩
  freeze_damage := fun pow => ⟨2, pow⟩
  waterstrike_damage := fun hd => ⟨3, hd⟩
  iood_damage := fun _ _ _ => ⟨9, 9⟩
  glaciate_damage := fun _ _ => ⟨7, 7⟩
  ball_lightning_damage := fun _ => ⟨3, 3⟩
  mons_ball_lightning_hd := fun pow _ => pow
  mons_spell_is_spell := fun _ => true
  living_spell_type_for := fun _ => SPELL_SMITING
  living_spell_count := fun _ _ => 3
  hex_chance := fun _ _ _ => 37
  spell_typematch := fun _ _ => true
  spelltype_long_name := fun _ => "Conjuration"
  school_list := [0]
  spell_title := fun _ => "Magic Dart"
  spell_difficulty := fun _ => 1
  colour_to_str := fun _ => "white"
  element_colour := fun _ _ _ => 7

/-- The monster-spell slot types this file references
(`mon_spell_slot_flag` is an engine enum). -/
inductive mon_spell_slot_flag where
  | MON_SPELL_NATURAL
  | MON_SPELL_MAGICAL
  | MON_SPELL_PRIEST
  | MON_SPELL_VOCAL
  | MON_SPELL_WIZARD
deriving DecidableEq

/-- The descriptor table of `_ability_type_descriptor` (lines 65–71). -/
def descriptors : List (mon_spell_slot_flag × String) :=
  [ (.MON_SPELL_NATURAL, "natural"),
    (.MON_SPELL_MAGICAL, "magical"),
    (.MON_SPELL_PRIEST, "divine"),
    (.MON_SPELL_VOCAL, "natural") ]

/-- The engine's `lookup(map, key, fallback)`: the mapped value, or the
fallback when the key is absent. -/
def lookupD (m : List (mon_spell_slot_flag × String))
    (key : mon_spell_slot_flag) (fallback : String) : String :=
  match m.find? (fun en => decide (en.1 = key)) with
  | some en => en.2
  | none => fallback

/-- `_ability_type_descriptor` (lines 63–74). -/
def _ability_type_descriptor (t : mon_spell_slot_flag) : String :=
  lookupD descriptors t "buggy"

/-- The display-letter selection shared by `_describe_book`
(lines 550–557) and `_write_book` (lines 657–660): `find_if` over the
spell map, blank letter `' '` (code 32) when the spell is absent, so
extra spells "don't crash". -/
def spell_letter_lookup (spell_map : List (spell_type × Nat))
    (spell : spell_type) : Nat :=
  match spell_map.find? (fun en => decide (en.1 = spell)) with
  | some en => en.2
  | none => 32

/-- Modelled from the spec: `spells_in_book` (spl-book.cc, outside the
excerpt) lists the spells of a book item, in book order. -/
def spells_in_book (item : item_def) : List spell_type := item.spells

/-- Modelled from the spec: `comma_separated_line` (stringutil, outside
the excerpt); the spec calls the result of `terse_spell_list` a
single-line comma-separated summary, so entries are joined with ", ". -/
def comma_separated_line : List String → String
  | [] => ""
  | [s] => s
  | s :: rest => s ++ ", " ++ comma_separated_line rest

/-- `terse_spell_list` (lines 719–732): "Spells: " followed by one
"title (Llevel schools)" entry per spell of the book, in book order. -/
def terse_spell_list (e : Engine) (st : GameState) (item : item_def) :
    String :=
  let spell_descs := (spells_in_book item).map (fun spell =>
    e.spell_title spell ++ " (L" ++ intToString (e.spell_difficulty spell)
      ++ " " ++ _spell_schools e st spell ++ ")")
  "Spells: " ++ comma_separated_line spell_descs

/-- The string contains no newline character. -/
def noNewline (s : String) : Prop := '\n' ∉ s.data

instance noNewline_decidable (s : String) : Decidable (noNewline s) :=
  inferInstanceAs (Decidable ('\n' ∉ s.data))

def NUM_TERM_COLOURS : Nat := 16

def BLACK : Nat := 0

def DARKGRAY : Nat := 8

/-- 2^64, the modulus of `size_t` arithmetic. -/
def size_t_mod : Nat := 18446744073709551616

/-- C++11 `std::string::operator[]`: positions below the length read
that character, position == length reads the null character, and any
larger position is out of range. -/
def stringAt (s : List Char) (i : Nat) : Option Char :=
  if h : i < s.length then some s[i]
  else if i = s.length then some (Char.ofNat 0)
  else none

/-- One iteration of the element-colour loop of `_colourize`
(lines 443–448): append one colour-tagged character, failing if the
character access fails. -/
def colourStep (e : Engine) (st : GameState) (base : List Char)
    (col : Nat) (acc : Option String) (i : Nat) : Option String :=
  match acc, stringAt base i with
  | some out, some ci =>
      let term_col := e.element_colour col false st.you_pos
      let col_name := e.colour_to_str term_col
      some (out ++ "<" ++ col_name ++ ">" ++ String.singleton ci
        ++ "</" ++ col_name ++ ">")
  | _, _ => none

/-- `_colourize` (lines 432–451).  Character accesses go through
`stringAt`, and the whole computation is `none` when any access is out
of range.  The loop `for (int i = 1; i < (int)base.length() - 1; i++)`
runs `base.length() - 2` times (saturating at 0), and the final
`base[base.length() - 1]` indexes with `size_t` arithmetic, so the index
wraps modulo 2^64 on the empty string. -/
def _colourize (e : Engine) (st : GameState) (base : List Char)
    (col : Nat) : Option String :=
  if col < NUM_TERM_COLOURS then
    let c := if col = BLACK then DARKGRAY else col
    let col_name := e.colour_to_str c
    some ("<" ++ col_name ++ ">" ++ (⟨base⟩ : String) ++ "</"
      ++ col_name ++ ">")
  else
    match stringAt base 0 with
    | none => none
    | some c0 =>
        let out0 := String.singleton c0
        match (List.range' 1 (base.length - 2)).foldl
            (colourStep e st base col) (some out0) with
        | none => none
        | some out =>
            match stringAt base
                ((base.length + (size_t_mod - 1)) % size_t_mod) with
            | none => none
            | some clast => some (out ++ String.singleton clast)

end DescribeSpells

namespace AlphaShops

/-- C1: the claim says every letter `pickletter` can return has at least
5 items.  The code adds 1 to the item count before the `< 5` test
(line 208), so the letter `N`, whose `shopcontents` list has only 4
items, survives the eligibility pass and is a possible return value of
`pickletter` — contradicting the claim and the script's own comments
("five or more items"). -/
theorem C1_pickletter_can_return_letter_with_fewer_than_5_items :
    pickletter 11 = 'N' ∧ (shopcontents 'N').length = 4 ∧
      (shopcontents 'N').length < 5 := by
  refine ⟨rfl, rfl, by decide⟩

/-- C2: the claim says the generated `shopcount` always satisfies
`5 ≤ shopcount ≤ min(15, itemcount)`.  For the reachable letter `N`
(4 items), every random draw yields `shopcount = 4`, violating the lower
bound. -/
theorem C2_shopcount_violates_lower_bound_for_N :
    pickletter 11 = 'N' ∧ (∀ r : Nat, shopcountFor 'N' r = 4) ∧
      ¬ ((5 : Int) ≤ 4) := by
  exact ⟨rfl, fun r => rfl, by decide⟩

/-- C8: for every uppercase letter, every RNG outcome, and every
generated name, the owner name starts with the letter and contains no
space, so the name token never breaks the space-delimited KFEAT shop
line. -/
theorem C8_ownername_starts_with_letter_and_has_no_space
    (s : Char) (nicolae : Bool) (gen : List Char)
    (hs : s.isUpper = true) :
    (ownername s nicolae gen).head? = some s ∧
      ' ' ∉ ownername s nicolae gen := by
  have hne : s ≠ ' ' := by
    intro hEq
    subst hEq
    exact absurd hs (by decide)
  unfold ownername
  by_cases h : s = 'N' ∧ nicolae = true
  · rw [if_pos h, h.1]
    exact ⟨rfl, by decide⟩
  · rw [if_neg h]
    unfold removeSpaces
    rw [List.filter_cons_of_pos (by simpa using hne)]
    refine ⟨rfl, ?_⟩
    intro hmem
    rcases List.mem_cons.mp hmem with hsp | hsp
    · exact hne hsp.symm
    · have := List.of_mem_filter hsp
      simp at this

/-- Closed witness for C8: letter 'B', no Nicolae draw, generated name
"Foo Bar". -/
theorem C8_ownername_witness :
    (ownername 'B' false "Foo Bar".toList).head? = some 'B' ∧
      ' ' ∉ ownername 'B' false "Foo Bar".toList :=
  C8_ownername_starts_with_letter_and_has_no_space 'B' false
    "Foo Bar".toList (by decide)

end AlphaShops

namespace DescribeSpells

theorem foldl_books_eq_foldl_flat {α : Type} (f : α → spell_type → α)
    (spells : spellset) (init : α) :
    spells.foldl (fun st book => book.spells.foldl f st) init
      = (flatSpells spells).foldl f init := by
  induction spells generalizing init with
  | nil => rfl
  | cons b bs ih =>
      rw [List.foldl_cons, ih (List.foldl f init b.spells)]
      simp [flatSpells, List.foldl_append]

theorem mem_setInsert (s : List spell_type) (a x : spell_type) :
    x ∈ setInsert s a ↔ x ∈ s ∨ x = a := by
  unfold setInsert
  by_cases hx : a ∈ s
  · simp only [hx, if_true]
    constructor
    · exact Or.inl
    · rintro (h | rfl)
      · exact h
      · exact hx
  · simp [hx, List.mem_append]

theorem mem_foldl_setInsert (l : List spell_type) (s : List spell_type)
    (x : spell_type) :
    x ∈ l.foldl setInsert s ↔ x ∈ s ∨ x ∈ l := by
  induction l generalizing s with
  | nil => simp
  | cons a t ih =>
      rw [List.foldl_cons, ih, mem_setInsert]
      simp only [List.mem_cons]
      tauto

theorem nodup_foldl_setInsert (l : List spell_type) (s : List spell_type)
    (hs : s.Nodup) : (l.foldl setInsert s).Nodup := by
  induction l generalizing s with
  | nil => exact hs
  | cons a t ih =>
      simp only [List.foldl_cons, setInsert]
      by_cases hx : a ∈ s
      · simp only [hx, if_true]; exact ih _ hs
      · simp only [hx, if_false]
        exact ih _ (by simp [List.nodup_append, hs, hx])

theorem foldl_eraseStep_eq_firstOcc (l : List spell_type)
    (S acc : List spell_type) (hS : S.Nodup)
    (hinv : ∀ x ∈ l, x ∈ S ↔ x ∉ acc) :
    (l.foldl eraseStep (S, acc)).2 = l.foldl setInsert acc := by
  induction l generalizing S acc with
  | nil => rfl
  | cons a t ih =>
      have ha := hinv a (by simp)
      by_cases haS : a ∈ S
      · have hanotacc : a ∉ acc := ha.mp haS
        simp only [List.foldl_cons, eraseStep, setInsert, haS, if_true,
          hanotacc, if_false]
        refine ih (S.erase a) (acc ++ [a]) (hS.erase a) ?_
        intro x hx
        rw [hS.mem_erase_iff]
        constructor
        · rintro ⟨hxa, hxS⟩
          simp only [List.mem_append, List.mem_singleton]
          push_neg
          exact ⟨(hinv x (by simp [hx])).mp hxS, hxa⟩
        · intro hxnot
          simp only [List.mem_append, List.mem_singleton] at hxnot
          push_neg at hxnot
          exact ⟨hxnot.2, (hinv x (by simp [hx])).mpr hxnot.1⟩
      · have haacc : a ∈ acc := by
          by_contra hc
          exact haS (ha.mpr hc)
        simp only [List.foldl_cons, eraseStep, setInsert, haS, if_false,
          haacc, if_true]
        refine ih S acc hS ?_
        intro x hx
        exact hinv x (by simp [hx])

theorem spellset_contents_eq_firstOcc (spells : spellset) :
    _spellset_contents spells = firstOccurrenceDedup (flatSpells spells) := by
  show (spells.foldl (fun st book => book.spells.foldl eraseStep st)
      (spells.foldl (fun s book => book.spells.foldl setInsert s) [], [])).2
    = (flatSpells spells).foldl setInsert []
  rw [foldl_books_eq_foldl_flat setInsert spells [],
    foldl_books_eq_foldl_flat eraseStep spells]
  refine foldl_eraseStep_eq_firstOcc (flatSpells spells) _ [] ?_ ?_
  · exact nodup_foldl_setInsert _ [] (by simp)
  · intro x hx
    simp [mem_foldl_setInsert, hx]

theorem spellset_contents_nodup (spells : spellset) :
    (_spellset_contents spells).Nodup := by
  rw [spellset_contents_eq_firstOcc]
  exact nodup_foldl_setInsert _ [] (by simp)

/-- C4: `_spellset_contents` lists each distinct spell of the set exactly
once, in order of first occurrence across the books: it equals the
spec-side first-occurrence deduplication of the flattened spell
sequence, is duplicate-free, and keeps exactly the spells of the set. -/
theorem C4_spellset_contents_is_first_occurrence_dedup (spells : spellset) :
    _spellset_contents spells = firstOccurrenceDedup (flatSpells spells)
      ∧ (_spellset_contents spells).Nodup
      ∧ ∀ s, s ∈ _spellset_contents spells ↔ s ∈ flatSpells spells := by
  refine ⟨spellset_contents_eq_firstOcc spells, spellset_contents_nodup spells, ?_⟩
  · intro s
    rw [spellset_contents_eq_firstOcc]
    unfold firstOccurrenceDedup
    simp [mem_foldl_setInsert]

theorem evenOdd_cons (t : List spell_type) : ∀ a : spell_type,
    evenPositions (a :: t) = a :: oddPositions t ∧
      oddPositions (a :: t) = evenPositions t := by
  induction t with
  | nil => exact fun a => ⟨rfl, rfl⟩
  | cons b r ih =>
      intro a
      constructor
      · show a :: evenPositions r = a :: oddPositions (b :: r)
        rw [(ih b).2]
      · show b :: oddPositions r = evenPositions (b :: r)
        rw [(ih b).1]

theorem evenPositions_cons (a : spell_type) (t : List spell_type) :
    evenPositions (a :: t) = a :: oddPositions t := (evenOdd_cons t a).1

theorem oddPositions_cons (a : spell_type) (t : List spell_type) :
    oddPositions (a :: t) = evenPositions t := (evenOdd_cons t a).2

theorem length_even_odd (l : List spell_type) :
    (evenPositions l).length = (l.length + 1) / 2 ∧
      (oddPositions l).length = l.length / 2 := by
  induction l with
  | nil => exact ⟨rfl, rfl⟩
  | cons a t ih =>
      obtain ⟨h1, h2⟩ := ih
      rw [evenPositions_cons, oddPositions_cons]
      constructor
      · simp only [List.length_cons, h2]; omega
      · simp only [List.length_cons, h1]

theorem getElem?_even_odd (l : List spell_type) :
    (∀ i, (evenPositions l)[i]? = l[2 * i]?) ∧
      (∀ i, (oddPositions l)[i]? = l[2 * i + 1]?) := by
  induction l with
  | nil =>
      exact ⟨fun i => by simp [evenPositions], fun i => by simp [oddPositions]⟩
  | cons a t ih =>
      obtain ⟨h1, h2⟩ := ih
      constructor
      · intro i
        rw [evenPositions_cons]
        cases i with
        | zero => simp
        | succ j =>
            have hh : 2 * (j + 1) = (2 * j + 1) + 1 := by ring
            rw [hh, List.getElem?_cons_succ, List.getElem?_cons_succ]
            exact h2 j
      · intro i
        rw [oddPositions_cons, List.getElem?_cons_succ]
        exact h1 i

theorem even_append_odd_perm (l : List spell_type) :
    (evenPositions l ++ oddPositions l).Perm l := by
  induction l with
  | nil => exact List.Perm.refl _
  | cons a t ih =>
      rw [evenPositions_cons, oddPositions_cons]
      have h1 : ((a :: oddPositions t) ++ evenPositions t)
          = a :: (oddPositions t ++ evenPositions t) := rfl
      rw [h1]
      exact ((List.perm_append_comm).trans ih).cons a

theorem assignLetters_length (l : List spell_type) (c : Nat) :
    (assignLetters l c).length = l.length := by
  induction l generalizing c with
  | nil => rfl
  | cons a t ih => simp [assignLetters, ih]

theorem assignLetters_getElem? (l : List spell_type) (c : Nat) (i : Nat) :
    (assignLetters l c)[i]? = l[i]?.map (fun s => (s, c + i)) := by
  induction l generalizing c i with
  | nil => simp [assignLetters]
  | cons a t ih =>
      cases i with
      | zero => simp [assignLetters]
      | succ j =>
          simp only [assignLetters, List.getElem?_cons_succ, ih]
          rw [show (c + 1) + j = c + (j + 1) from by omega]

theorem assignLetters_map_fst (l : List spell_type) (c : Nat) :
    (assignLetters l c).map Prod.fst = l := by
  induction l generalizing c with
  | nil => rfl
  | cons a t ih => simp [assignLetters, ih]

theorem assignLetters_map_snd (l : List spell_type) (c : Nat) :
    (assignLetters l c).map Prod.snd = List.range' c l.length := by
  induction l generalizing c with
  | nil => rfl
  | cons a t ih => simp [assignLetters, ih, List.range']

/-- C5: display letters start at `'a'` (code 97).  With a non-null
source item the `i`-th deduplicated spell gets the `i`-th letter; with a
null source item letters are assigned column-major: the even-position
spells get the first `(n+1)/2` letters in order, the odd-position spells
the following ones. -/
theorem C5_map_chars_letters (spells : spellset) (it : item_def) :
    (∀ i s, (_spellset_contents spells)[i]? = some s →
        (map_chars_to_spells spells (some it))[i]? = some (s, 97 + i))
    ∧ (∀ i s, (_spellset_contents spells)[i]? = some s → i % 2 = 0 →
        (map_chars_to_spells spells none)[i / 2]? = some (s, 97 + i / 2))
    ∧ (∀ i s, (_spellset_contents spells)[i]? = some s → i % 2 = 1 →
        (map_chars_to_spells spells none)[((_spellset_contents spells).length + 1) / 2 + i / 2]?
          = some (s, 97 + (((_spellset_contents spells).length + 1) / 2 + i / 2))) := by
  have hdc : _list_spells_doublecolumn (some it) = false := rfl
  have hdn : _list_spells_doublecolumn none = true := rfl
  refine ⟨?_, ?_, ?_⟩
  · intro i s hs
    show (assignLetters (_spellset_contents spells) 97)[i]? = some (s, 97 + i)
    rw [assignLetters_getElem?, hs]
    rfl
  · intro i s hs hev
    obtain ⟨hi, -⟩ := List.getElem?_eq_some_iff.mp hs
    have hlen1 : (assignLetters (evenPositions (_spellset_contents spells)) 97).length
        = ((_spellset_contents spells).length + 1) / 2 := by
      rw [assignLetters_length, (length_even_odd _).1]
    show ((assignLetters (evenPositions (_spellset_contents spells)) 97) ++
        assignLetters (oddPositions (_spellset_contents spells))
          (97 + (assignLetters (evenPositions (_spellset_contents spells)) 97).length))[i / 2]?
      = some (s, 97 + i / 2)
    rw [List.getElem?_append_left (by rw [hlen1]; omega)]
    rw [assignLetters_getElem?, (getElem?_even_odd _).1,
      show 2 * (i / 2) = i from by omega, hs]
    rfl
  · intro i s hs hodd
    obtain ⟨hi, -⟩ := List.getElem?_eq_some_iff.mp hs
    have hlen1 : (assignLetters (evenPositions (_spellset_contents spells)) 97).length
        = ((_spellset_contents spells).length + 1) / 2 := by
      rw [assignLetters_length, (length_even_odd _).1]
    show ((assignLetters (evenPositions (_spellset_contents spells)) 97) ++
        assignLetters (oddPositions (_spellset_contents spells))
          (97 + (assignLetters (evenPositions (_spellset_contents spells)) 97).length))[((_spellset_contents spells).length + 1) / 2 + i / 2]?
      = some (s, 97 + (((_spellset_contents spells).length + 1) / 2 + i / 2))
    rw [List.getElem?_append_right (by rw [hlen1]; omega)]
    rw [hlen1, show ((_spellset_contents spells).length + 1) / 2 + i / 2
        - ((_spellset_contents spells).length + 1) / 2 = i / 2 from by omega]
    rw [assignLetters_getElem?, (getElem?_even_odd _).2,
      show 2 * (i / 2) + 1 = i from by omega, hs, Nat.add_assoc]
    rfl

/-- Closed witness for C5 on the spellset {book [10, 20, 30]}: in the
single-column layout spell 20 (position 1) receives letter code 98; in
the double-column layout it receives code 99, after the two even-position
spells. -/
theorem C5_map_chars_letters_witness :
    (map_chars_to_spells [⟨"b", [10, 20, 30]⟩] (some ⟨[10, 20, 30]⟩))[1]?
        = some (20, 98)
    ∧ (map_chars_to_spells [⟨"b", [10, 20, 30]⟩] none)[2]? = some (20, 99) := by
  constructor
  · exact (C5_map_chars_letters [⟨"b", [10, 20, 30]⟩] ⟨[10, 20, 30]⟩).1 1 20 (by rfl)
  · exact (C5_map_chars_letters [⟨"b", [10, 20, 30]⟩] ⟨[10, 20, 30]⟩).2.2 1 20 (by rfl) (by rfl)

/-- C9: for any source item, the keys of `map_chars_to_spells` are a
permutation of the deduplicated spell list (no spell dropped or
duplicated, each appearing once), and the assigned character codes are
exactly the consecutive codes from `'a'` (97), gap-free and in order. -/
theorem C9_map_chars_permutation_and_consecutive_letters
    (spells : spellset) (source_item : Option item_def) :
    ((map_chars_to_spells spells source_item).map Prod.fst).Perm
        (_spellset_contents spells)
    ∧ ((map_chars_to_spells spells source_item).map Prod.fst).Nodup
    ∧ (map_chars_to_spells spells source_item).map Prod.snd
        = List.range' 97 (_spellset_contents spells).length := by
  have hnd : (_spellset_contents spells).Nodup :=
    spellset_contents_nodup spells
  cases source_item with
  | some it =>
      refine ⟨?_, ?_, ?_⟩
      · show ((assignLetters (_spellset_contents spells) 97).map Prod.fst).Perm _
        rw [assignLetters_map_fst]
      · show ((assignLetters (_spellset_contents spells) 97).map Prod.fst).Nodup
        rw [assignLetters_map_fst]; exact hnd
      · show (assignLetters (_spellset_contents spells) 97).map Prod.snd = _
        rw [assignLetters_map_snd]
  | none =>
      have hperm : ((map_chars_to_spells spells none).map Prod.fst).Perm
          (_spellset_contents spells) := by
        show (((assignLetters (evenPositions (_spellset_contents spells)) 97) ++
            assignLetters (oddPositions (_spellset_contents spells))
              (97 + (assignLetters (evenPositions (_spellset_contents spells)) 97).length)).map
                Prod.fst).Perm _
        rw [List.map_append, assignLetters_map_fst, assignLetters_map_fst]
        exact even_append_odd_perm _
      refine ⟨hperm, hperm.nodup_iff.mpr hnd, ?_⟩
      show ((assignLetters (evenPositions (_spellset_contents spells)) 97) ++
          assignLetters (oddPositions (_spellset_contents spells))
            (97 + (assignLetters (evenPositions (_spellset_contents spells)) 97).length)).map
              Prod.snd = _
      rw [List.map_append, assignLetters_map_snd, assignLetters_map_snd,
        assignLetters_length, List.range'_append_1]
      have h1 := (length_even_odd (_spellset_contents spells)).1
      have h2 := (length_even_odd (_spellset_contents spells)).2
      rw [h1, h2]
      congr 1
      omega

/-- C3 counterexample: same spell (10) and hit die (3), two game states
differing only in the player's position; `_range_string` colours the
range "lightred" when the monster is within range of the player and
"lightgray" otherwise, so the returned string differs — the range string
is not a function of spell and hit die alone. -/
theorem C3_range_string_depends_on_game_state :
    _range_string testEngine ⟨true, (0, 0), fun _ => false⟩ 10
        (some ⟨0, (1, 1), 0, 3, 3⟩) 3
      ≠ _range_string testEngine ⟨true, (9, 9), fun _ => false⟩ 10
        (some ⟨0, (1, 1), 0, 3, 3⟩) 3 := by decide

/-- C3 amended: `_spell_damage` and `_spell_schools` are functions of
spell and hit die alone (they never read the ambient state), and
`_range_string` and `_effect_string` depend on the state only in limited
ways: `_range_string` only through its in-range test (`range_test`), and
`_effect_string` not at all for spells without a willpower check other
than Conjure Living Spells. -/
theorem C3_strings_pure_amended (e : Engine) (st1 st2 : GameState)
    (spell : spell_type) (mon : monster_info) (hd : Int)
    (hrange : range_test e st1 spell mon hd = range_test e st2 spell mon hd)
    (hWL : (e.get_spell_flags spell).WL_check = false)
    (hCLS : spell ≠ SPELL_CONJURE_LIVING_SPELLS) :
    _spell_damage e st1 spell hd = _spell_damage e st2 spell hd
    ∧ _spell_schools e st1 spell = _spell_schools e st2 spell
    ∧ _range_string e st1 spell (some mon) hd
        = _range_string e st2 spell (some mon) hd
    ∧ _effect_string e st1 spell (some mon)
        = _effect_string e st2 spell (some mon) := by
  refine ⟨rfl, rfl, ?_, ?_⟩
  · simp only [_range_string, hrange]
  · simp only [_effect_string, hCLS, if_false, _effect_string_base, hWL,
      Bool.false_eq_true, if_neg, _spell_damage]

/-- Closed witness for the amended C3: two different states under which
the monster is in range in both; all four strings agree. -/
theorem C3_strings_pure_amended_witness :
    _range_string testEngine ⟨true, (0, 0), fun _ => false⟩ 10
        (some ⟨0, (1, 1), 0, 3, 3⟩) 3
      = _range_string testEngine ⟨true, (2, 2), fun _ => false⟩ 10
        (some ⟨0, (1, 1), 0, 3, 3⟩) 3 :=
  (C3_strings_pure_amended testEngine ⟨true, (0, 0), fun _ => false⟩
    ⟨true, (2, 2), fun _ => false⟩ 10 ⟨0, (1, 1), 0, 3, 3⟩ 3
    (by decide) (by decide) (by decide)).2.2.1

/-- C6: lookups and letter assignments fail soft.  Any slot flag outside
the four-entry descriptor table yields the placeholder "buggy", and any
spell with no entry in the spell-to-letter map renders with the blank
letter (code 32). -/
theorem C6_lookup_fallbacks (t : mon_spell_slot_flag)
    (ht : t ∉ descriptors.map Prod.fst)
    (m : List (spell_type × Nat)) (sp : spell_type)
    (hm : ∀ en ∈ m, en.1 ≠ sp) :
    _ability_type_descriptor t = "buggy" ∧ spell_letter_lookup m sp = 32 := by
  constructor
  · cases t with
    | MON_SPELL_NATURAL => exact absurd (by decide) ht
    | MON_SPELL_MAGICAL => exact absurd (by decide) ht
    | MON_SPELL_PRIEST => exact absurd (by decide) ht
    | MON_SPELL_VOCAL => exact absurd (by decide) ht
    | MON_SPELL_WIZARD => decide
  · unfold spell_letter_lookup
    have hfind : m.find? (fun en => decide (en.1 = sp)) = none := by
      rw [List.find?_eq_none]
      intro en hen
      simp [hm en hen]
    rw [hfind]

/-- Closed witness for C6: the wizard slot type is not in the descriptor
table and gets "buggy"; spell 2 has no entry in the map [(1, 97)] and
gets the blank letter. -/
theorem C6_lookup_fallbacks_witness :
    _ability_type_descriptor .MON_SPELL_WIZARD = "buggy" ∧
      spell_letter_lookup [(1, 97)] 2 = 32 :=
  C6_lookup_fallbacks .MON_SPELL_WIZARD (by decide) [(1, 97)] 2 (by decide)

theorem string_data_append (a b : String) :
    (a ++ b).data = a.data ++ b.data := by
  cases a
  cases b
  rfl

theorem noNewline_append (a b : String) (ha : noNewline a)
    (hb : noNewline b) : noNewline (a ++ b) := by
  unfold noNewline at *
  rw [string_data_append]
  intro hmem
  rcases List.mem_append.mp hmem with hmem | hmem
  · exact ha hmem
  · exact hb hmem

theorem digitChar_ne_newline (d : Nat) : digitChar d ≠ '\n' := by
  unfold digitChar
  split <;> decide

theorem newline_not_mem_natDigits (n : Nat) : '\n' ∉ natDigits n := by
  induction n using Nat.strong_induction_on with
  | _ n ih =>
      unfold natDigits
      by_cases h : n < 10
      · simp only [if_pos h, List.mem_singleton]
        exact fun hc => digitChar_ne_newline n hc.symm
      · simp only [if_neg h, List.mem_append, List.mem_singleton]
        push_neg
        refine ⟨ih (n / 10) (by omega), ?_⟩
        exact fun hc => digitChar_ne_newline (n % 10) hc.symm

theorem noNewline_intToString (i : Int) : noNewline (intToString i) := by
  unfold intToString noNewline
  by_cases h : i < 0
  · rw [if_pos h]
    show '\n' ∉ '-' :: natDigits i.natAbs
    intro hmem
    rcases List.mem_cons.mp hmem with hc | hc
    · exact absurd hc (by decide)
    · exact newline_not_mem_natDigits _ hc
  · rw [if_neg h]
    exact newline_not_mem_natDigits _

theorem noNewline_spell_schools (e : Engine) (st : GameState)
    (spell : spell_type)
    (hnames : ∀ f, noNewline (e.spelltype_long_name f)) :
    noNewline (_spell_schools e st spell) := by
  unfold _spell_schools
  have hgen : ∀ (l : List Nat) (acc : String), noNewline acc →
      noNewline (l.foldl
        (fun schools school_flag =>
          if !e.spell_typematch spell school_flag then schools
          else (if schools ≠ "" then schools ++ "/" else schools)
            ++ e.spelltype_long_name school_flag) acc) := by
    intro l
    induction l with
    | nil => exact fun acc hacc => hacc
    | cons f t ih =>
        intro acc hacc
        simp only [List.foldl_cons]
        apply ih
        by_cases hm : e.spell_typematch spell f
        · simp only [hm, Bool.not_true, Bool.false_eq_true, if_false]
          apply noNewline_append
          · by_cases hemp : acc = ""
            · simp only [hemp, ne_eq, not_true_eq_false, if_false]
              exact hemp ▸ hacc
            · simp only [ne_eq, hemp, not_false_eq_true, if_true]
              exact noNewline_append _ _ hacc (by decide)
          · exact hnames f
        · simp only [Bool.not_eq_true] at hm
          simp only [hm, Bool.not_false, if_true]
          exact hacc
  exact hgen e.school_list "" (by decide)

theorem noNewline_comma_separated_line (l : List String)
    (h : ∀ s ∈ l, noNewline s) : noNewline (comma_separated_line l) := by
  induction l with
  | nil => decide
  | cons a t ih =>
      cases t with
      | nil => exact h a (by simp)
      | cons b r =>
          show noNewline (a ++ ", " ++ comma_separated_line (b :: r))
          apply noNewline_append
          · exact noNewline_append _ _ (h a (by simp)) (by decide)
          · exact ih (fun s hsm => h s (List.mem_cons_of_mem a hsm))

/-- C7: `terse_spell_list` is "Spells: " followed by one
"title (Llevel schools)" entry per spell of the book, in book order,
joined with ", ", and contains no newline when the engine's spell titles
and school names contain none. -/
theorem C7_terse_spell_list_is_single_line (e : Engine) (st : GameState)
    (item : item_def)
    (htitles : ∀ sp ∈ spells_in_book item, noNewline (e.spell_title sp))
    (hnames : ∀ f, noNewline (e.spelltype_long_name f)) :
    terse_spell_list e st item
      = "Spells: " ++ comma_separated_line ((spells_in_book item).map
          (fun spell => e.spell_title spell ++ " (L"
            ++ intToString (e.spell_difficulty spell) ++ " "
            ++ _spell_schools e st spell ++ ")"))
    ∧ noNewline (terse_spell_list e st item) := by
  refine ⟨rfl, ?_⟩
  show noNewline ("Spells: " ++ comma_separated_line _)
  apply noNewline_append
  · decide
  · apply noNewline_comma_separated_line
    intro s hsmem
    rcases List.mem_map.mp hsmem with ⟨sp, hsp, rfl⟩
    apply noNewline_append
    apply noNewline_append
    apply noNewline_append
    apply noNewline_append
    apply noNewline_append
    · exact htitles sp hsp
    · decide
    · exact noNewline_intToString _
    · decide
    · exact noNewline_spell_schools e st sp hnames
    · decide

/-- Closed witness for C7 over the concrete engine: the book [1, 2]
renders to a newline-free terse line. -/
theorem C7_terse_spell_list_witness :
    noNewline (terse_spell_list testEngine
      ⟨true, (0, 0), fun _ => false⟩ ⟨[1, 2]⟩) :=
  (C7_terse_spell_list_is_single_line testEngine
    ⟨true, (0, 0), fun _ => false⟩ ⟨[1, 2]⟩
    (fun sp _ => (by decide : noNewline "Magic Dart"))
    (fun f => (by decide : noNewline "Conjuration"))).2

theorem foldl_colourStep_isSome (e : Engine) (st : GameState)
    (base : List Char) (col : Nat) (l : List Nat) :
    ∀ s0 : String, (∀ i ∈ l, i < base.length) →
      ((l.foldl (colourStep e st base col) (some s0))).isSome = true := by
  induction l with
  | nil => exact fun s0 _ => rfl
  | cons i t ih =>
      intro s0 hl
      have hi : i < base.length := hl i (by simp)
      have hsome : (stringAt base i).isSome = true := by
        unfold stringAt
        rw [dif_pos hi]
        rfl
      obtain ⟨ci, hci⟩ := Option.isSome_iff_exists.mp hsome
      have hstep : colourStep e st base col (some s0) i
          = some (s0 ++ "<"
              ++ e.colour_to_str (e.element_colour col false st.you_pos)
              ++ ">" ++ String.singleton ci ++ "</"
              ++ e.colour_to_str (e.element_colour col false st.you_pos)
              ++ ">") := by
        unfold colourStep
        rw [hci]
      rw [List.foldl_cons, hstep]
      exact ih _ (fun j hj => hl j (List.mem_cons_of_mem i hj))

/-- C10 counterexample: on the empty string with an element colour
(col = NUM_TERM_COLOURS), `_colourize` evaluates
`base[base.length() - 1]`, whose `size_t` index wraps to 2^64 - 1 — out
of range on the empty string — refuting the claim that every access of
`_colourize` is in range. -/
theorem C10_colourize_empty_string_reads_out_of_range :
    _colourize testEngine ⟨true, (0, 0), fun _ => false⟩ [] 16 = none := by
  rfl

/-- C10 amended: `_colourize` accesses only in-range positions (and so
produces a string) for every non-empty base, and for every base when the
colour is a plain terminal colour; only the empty string combined with
an element colour makes the final `base.length() - 1` access wrap out of
range. -/
theorem C10_colourize_safe_on_nonempty (e : Engine) (st : GameState)
    (base : List Char) (col : Nat) (hne : base ≠ [])
    (hlen : base.length < size_t_mod) :
    (_colourize e st base col).isSome = true := by
  unfold _colourize
  by_cases hcol : col < NUM_TERM_COLOURS
  · rw [if_pos hcol]
    rfl
  · rw [if_neg hcol]
    have hpos : 0 < base.length := List.length_pos.mpr hne
    have h0some : (stringAt base 0).isSome = true := by
      unfold stringAt
      rw [dif_pos hpos]
      rfl
    obtain ⟨c0, h0⟩ := Option.isSome_iff_exists.mp h0some
    simp only [h0]
    have hfold := foldl_colourStep_isSome e st base col
      (List.range' 1 (base.length - 2)) (String.singleton c0)
      (by
        intro i hi
        rw [List.mem_range'_1] at hi
        omega)
    obtain ⟨out, hout⟩ := Option.isSome_iff_exists.mp hfold
    simp only [hout]
    have hidx : (base.length + (size_t_mod - 1)) % size_t_mod
        = base.length - 1 := by
      unfold size_t_mod at *
      omega
    have hlast : (stringAt base
        ((base.length + (size_t_mod - 1)) % size_t_mod)).isSome = true := by
      rw [hidx]
      unfold stringAt
      rw [dif_pos (by omega)]
      rfl
    obtain ⟨clast, hcl⟩ := Option.isSome_iff_exists.mp hlast
    simp only [hcl]
    rfl

/-- Closed witness for the amended C10: a one-character string with an
element colour colourizes successfully. -/
theorem C10_colourize_safe_witness :
    (_colourize testEngine ⟨true, (0, 0), fun _ => false⟩ ['a'] 16).isSome
      = true :=
  C10_colourize_safe_on_nonempty testEngine ⟨true, (0, 0), fun _ => false⟩
    ['a'] 16 (by decide) (by decide)

end DescribeSpells
